import Mathlib

/-!
Verification development for the tello_edu_protocol driver
(src/tello_edu_protocol/tello.py).  Raw datagram payloads are modelled as
lists of characters (the byte/text encoding step is the identity at this
level of abstraction).  Python string methods used by the source are
modelled with their Python semantics: strip removes whitespace at both
ends, startswith tests for a leading occurrence of the given text, and
lstrip with a character-set argument removes leading characters belonging
to that set (not a leading occurrence of the whole text).  Two slips in
the source are modelled faithfully: str has no method named starts_with,
so cmd_datagram_handler raises AttributeError on every payload, and in
the generated send method the star-parameter makes command a tuple, so
command.encode raises AttributeError before anything touches the socket
or the queue.  The behavior those dead code paths intend is captured by
separate definitions, each clearly marked as modelled from the spec.
-/

/-- Python str.startswith on character lists. -/
def starts_with : List Char → List Char → Bool
  | _, [] => true
  | [], _ :: _ => false
  | c :: cs, p :: ps => c == p && starts_with cs ps

/-- Python str.lstrip with a character-set argument: remove leading
characters that belong to the given set. -/
def lstrip_chars (chars : List Char) : List Char → List Char
  | [] => []
  | c :: cs => if chars.contains c then lstrip_chars chars cs else c :: cs

/-- Python str.rstrip with a character-set argument. -/
def rstrip_chars (chars : List Char) (s : List Char) : List Char :=
  (lstrip_chars chars s.reverse).reverse

/-- The characters Python str.strip removes by default. -/
def py_whitespace : List Char :=
  [' ', '\t', '\n', '\r', '\x0b', '\x0c', '\x1c', '\x1d', '\x1e', '\x1f']

/-- Python str.strip with no argument: whitespace removed at both ends. -/
def py_strip (s : List Char) : List Char :=
  rstrip_chars py_whitespace (lstrip_chars py_whitespace s)

/-- Modelled from the spec: the structured telemetry snapshot produced by
the external telemetry parser (src/tello_edu_protocol/state.py is not part
of the sources here; the spec treats telemetry parsing as an opaque
external collaborator, so the snapshot is modelled as an opaque wrapper
around the raw telemetry line). -/
structure DroneState where
  raw : List Char
deriving DecidableEq

/-- Modelled from the spec: DroneState.from_raw, the opaque parse of a raw
telemetry line into a snapshot. -/
def DroneState.from_raw (s : List Char) : DroneState := DroneState.mk s

/-- Protocol.Value: a decoded value is a response string or a snapshot. -/
inductive Value
  | str (s : List Char)
  | state (d : DroneState)
deriving DecidableEq

/-- The exceptions a datagram handler can raise: AttributeError from an
attribute lookup that does not exist, ValueError (carrying the command
text interpolated into the message) for an unrecognized-command
response, RuntimeError for a device error response. -/
inductive HandlerErr
  | attributeError
  | valueError (cmd : List Char)
  | runtimeError
deriving DecidableEq

/-- The device marker for an unrecognized command, the literal
passed to starts_with and lstrip in cmd_datagram_handler. -/
def unknown_marker : List Char :=
  ['u', 'n', 'k', 'n', 'o', 'w', 'n', ' ', 'c', 'o', 'm', 'm', 'a', 'n', 'd', ':', ' ']

/-- The device error marker, the literal passed to starts_with in
cmd_datagram_handler. -/
def error_marker : List Char := ['e', 'r', 'r', 'o', 'r']

/-- Faithful embedding of cmd_datagram_handler: the payload is decoded
and trimmed, and then the source immediately raises AttributeError: the
branch test reads decoded.starts_with, and str has no attribute named
starts_with (the method is called startswith), so every call fails
before any marker is compared.  The ValueError and RuntimeError raise
sites and the success return are unreachable dead code. -/
def cmd_datagram_handler (data : List Char) : Except HandlerErr Value :=
  let _decoded := py_strip data
  Except.error HandlerErr.attributeError

/-- Modelled from the spec (4.1), which the dead branches of the source
spell out with starts_with read as startswith: trim the payload; when
the trimmed text begins with the unknown-command marker, fail with the
unknown-command error carrying what lstrip with the marker character
set leaves of it; when it begins with the error marker, fail with the
device error; otherwise succeed with the trimmed text. -/
def cmd_response_decode (data : List Char) : Except HandlerErr Value :=
  let decoded := py_strip data
  if starts_with decoded unknown_marker then
    Except.error (HandlerErr.valueError (lstrip_chars unknown_marker decoded))
  else if starts_with decoded error_marker then
    Except.error HandlerErr.runtimeError
  else
    Except.ok (Value.str decoded)

/-- Embedding of state_datagram_handler: decode, trim, delegate to the
external parser. -/
def state_datagram_handler (data : List Char) : Except HandlerErr Value :=
  Except.ok (Value.state (DroneState.from_raw (py_strip data)))

/-- Embedding of Protocol.datagram_received.  The source runs
queue.put_nowait(handler(data)): the handler is evaluated first, so when
it raises, put_nowait is never reached — the queue is unchanged and the
exception propagates out of the receive callback.  The result pairs the
queue after the call with the exception, if one was raised. -/
def datagram_received (handler : List Char → Except HandlerErr Value)
    (queue : List Value) (data : List Char) : List Value × Option HandlerErr :=
  match handler data with
  | Except.ok v => (queue ++ [v], none)
  | Except.error e => (queue, some e)

/-- Trimmed payload of the C5 scenario: unknown command foo. -/
def ufoo : List Char :=
  ['u', 'n', 'k', 'n', 'o', 'w', 'n', ' ', 'c', 'o', 'm', 'm', 'a', 'n', 'd', ':', ' ', 'f', 'o', 'o']

/-- The command text carried by the C5 scenario. -/
def foo_cmd : List Char := ['f', 'o', 'o']

/-- A text that starts with the error marker cannot start with the
unknown-command marker (the first characters differ). -/
theorem starts_with_error_not_unknown (t : List Char)
    (h : starts_with t error_marker = true) :
    starts_with t unknown_marker = false := by
  match t with
  | [] => exact absurd h (by decide)
  | c :: cs =>
    have h1 : (c == 'e') = true := by
      have h2 : (c == 'e' && starts_with cs ['r', 'r', 'o', 'r']) = true := h
      exact (Bool.and_eq_true _ _ |>.mp h2).1
    have hc : c = 'e' := eq_of_beq h1
    subst hc
    show (('e' == 'u') && _) = false
    rfl

/-- C5 (the code crashes here): on every payload — in particular on the
failing input whose trimmed text is "unknown command: foo" — the real
command handler raises AttributeError at decoded.starts_with, never the
unknown-command or device-error failure the claim describes.  The
decoding the spec intends does fail as the claim says: a trimmed text of
exactly "unknown command: foo" gives the unknown-command error carrying
exactly "foo", and a trimmed text beginning with "error" gives the
device error. -/
theorem cmd_decoder_attribute_error (data : List Char) :
    cmd_datagram_handler data = Except.error HandlerErr.attributeError ∧
    (py_strip data = ufoo →
      cmd_response_decode data = Except.error (HandlerErr.valueError foo_cmd)) ∧
    (starts_with (py_strip data) error_marker = true →
      cmd_response_decode data = Except.error HandlerErr.runtimeError) := by
  refine ⟨rfl, ?_, ?_⟩
  · intro h
    simp only [cmd_response_decode, h]
    rfl
  · intro h
    have hne := starts_with_error_not_unknown (py_strip data) h
    simp only [cmd_response_decode, hne, h]
    rfl

/-- Witness for C5: the crash and both intended branches evaluated on
concrete payloads. -/
theorem cmd_decoder_attribute_error_witness :
    cmd_datagram_handler ufoo = Except.error HandlerErr.attributeError ∧
    cmd_response_decode ufoo = Except.error (HandlerErr.valueError foo_cmd) ∧
    cmd_response_decode error_marker = Except.error HandlerErr.runtimeError :=
  ⟨(cmd_decoder_attribute_error ufoo).1,
   (cmd_decoder_attribute_error ufoo).2.1 (by decide),
   (cmd_decoder_attribute_error error_marker).2.2 (by decide)⟩

/-- C10 (the code crashes here): an empty or whitespace-only payload
trims to the empty string, but the real handler raises AttributeError at
decoded.starts_with rather than returning the empty success string; the
decoding the spec intends does return the empty string as a success,
since neither marker is a leading occurrence of the empty text. -/
theorem cmd_decoder_empty_attribute_error (data : List Char)
    (h : py_strip data = []) :
    cmd_datagram_handler data = Except.error HandlerErr.attributeError ∧
    cmd_response_decode data = Except.ok (Value.str []) := by
  refine ⟨rfl, ?_⟩
  simp only [cmd_response_decode, h]
  rfl

/-- Witness for C10: the crash and the intended empty success on a
whitespace-only payload. -/
theorem cmd_decoder_empty_attribute_error_witness :
    cmd_datagram_handler [' ', ' ', '\n'] =
      Except.error HandlerErr.attributeError ∧
    cmd_response_decode [' ', ' ', '\n'] = Except.ok (Value.str []) :=
  cmd_decoder_empty_attribute_error [' ', ' ', '\n'] (by decide)

/-- A datagram channel as seen by one take call: the values already
enqueued by the receive callback, in FIFO order, and the values that will
be enqueued later, each with its absolute arrival time. -/
structure ChanState (α : Type) where
  queue : List α
  arrivals : List (Nat × α)
deriving DecidableEq

/-- Embedding of asyncio.Queue.get for one call at time now: if the queue
is non-empty, the head is returned immediately; otherwise the call
suspends until the next arrival is enqueued and returns it; if nothing
ever arrives the call never completes.  The result carries the value, the
channel state after consumption, and the completion time. -/
def queue_get {α : Type} (st : ChanState α) (now : Nat) :
    Option ((α × ChanState α) × Nat) :=
  match st.queue with
  | v :: rest => some ((v, ChanState.mk rest st.arrivals), now)
  | [] =>
    match st.arrivals with
    | (ta, v) :: rest => some ((v, ChanState.mk [] rest), max now ta)
    | [] => none

/-- Embedding of the asyncio.timeout context manager around an awaited
operation: if the operation completes by the deadline now + t its result
stands; otherwise TimeoutError is raised exactly at the deadline.  An
error carries the time at which the call fails. -/
def withTimeout {γ : Type} (now t : Nat) : Option (γ × Nat) → Except Nat (γ × Nat)
  | some (v, tc) => if tc ≤ now + t then Except.ok (v, tc) else Except.error (now + t)
  | none => Except.error (now + t)


/-- Observable events of one generated send call. -/
inductive Ev
  | sendto (data : List Char)
  | dequeued (v : Value)
  | timedOut
deriving DecidableEq

/-- The trace of one intended send call: the serialized command is
written to the command transport first, then the dequeue completes or
the call times out. -/
def send_events (cmd : List Char) :
    Except Nat ((Value × ChanState Value) × Nat) → List Ev
  | Except.ok ((v, _), _) => [Ev.sendto cmd, Ev.dequeued v]
  | Except.error _ => [Ev.sendto cmd, Ev.timedOut]

/-- The failure of a send call: the AttributeError raised by the encode
attribute lookup on the command tuple, or the TimeoutError of the
asyncio.timeout deadline (never actually reached in the source). -/
inductive SendErr
  | attributeError
  | timeoutError
deriving DecidableEq

/-- Faithful embedding of the generated send method: the source declares
the parameter as a star-parameter, so command is bound to a tuple of the
arguments, and the first expression evaluated inside the asyncio.timeout
block is command.encode with a format keyword; a tuple has no encode
attribute (and str.encode accepts no format keyword either), so every
call raises AttributeError at time now, before anything is written to
the transport and before the queue is read.  The sendto and queue.get of
the source are unreachable: no send ever serializes, dequeues, or raises
TimeoutError. -/
def send (_cmd : List Char) (_t now : Nat) (_st : ChanState Value) :
    List Ev × Except (SendErr × Nat) ((Value × ChanState Value) × Nat) :=
  ([], Except.error (SendErr.attributeError, now))

/-- Modelled from the spec (4.3), which the unreachable part of the
generated send method intends: inside asyncio.timeout, the serialized
command is written to the command transport and then the next value is
dequeued from the command protocol queue. -/
def send_intended (cmd : List Char) (t now : Nat) (st : ChanState Value) :
    List Ev × Except Nat ((Value × ChanState Value) × Nat) :=
  (send_events cmd (withTimeout now t (queue_get st now)),
   withTimeout now t (queue_get st now))

/-- Embedding of the generated state method: inside asyncio.timeout,
dequeue the next value from the state protocol queue. -/
def state (t now : Nat) (st : ChanState Value) :
    Except Nat ((Value × ChanState Value) × Nat) :=
  withTimeout now t (queue_get st now)

/-- Every send trace begins with the serialization of the command. -/
theorem send_events_head (cmd : List Char)
    (r : Except Nat ((Value × ChanState Value) × Nat)) :
    (send_events cmd r).head? = some (Ev.sendto cmd) := by
  cases r with
  | ok x =>
    rcases x with ⟨⟨v, st2⟩, tc⟩
    rfl
  | error tf => rfl

/-- C1 (the code crashes here): every real send call raises
AttributeError immediately, with an empty trace — nothing is serialized,
nothing is dequeued, and TimeoutError is never raised, at the deadline
or otherwise.  The send the spec intends serializes the command first
and then dequeues: a success is exactly the next decoded value of the
channel, delivered no later than now + t; the call fails precisely when
no decoded value completes the dequeue by now + t, and any failure is
raised exactly at now + t, never earlier. -/
theorem send_crashes (cmd : List Char) (t now : Nat) (st : ChanState Value) :
    send cmd t now st = ([], Except.error (SendErr.attributeError, now)) ∧
    (send_intended cmd t now st).1.head? = some (Ev.sendto cmd) ∧
    (∀ r tc, (send_intended cmd t now st).2 = Except.ok (r, tc) →
      queue_get st now = some (r, tc) ∧ tc ≤ now + t) ∧
    ((send_intended cmd t now st).2 = Except.error (now + t) ↔
      ∀ r tc, queue_get st now = some (r, tc) → now + t < tc) ∧
    (∀ tf, (send_intended cmd t now st).2 = Except.error tf → tf = now + t) := by
  have hpr : (send_intended cmd t now st).2 =
      withTimeout now t (queue_get st now) := rfl
  refine ⟨rfl, send_events_head cmd _, ?_, ?_, ?_⟩
  · intro r tc h
    rw [hpr] at h
    rcases hq : queue_get st now with _ | ⟨⟨v, st2⟩, tc2⟩
    · rw [hq] at h
      simp [withTimeout] at h
    · rw [hq] at h
      simp only [withTimeout] at h
      by_cases hle : tc2 ≤ now + t
      · rw [if_pos hle] at h
        injection h with h
        obtain ⟨h1, h2⟩ := Prod.mk.injEq _ _ _ _ |>.mp h
        subst h1
        subst h2
        exact ⟨rfl, hle⟩
      · rw [if_neg hle] at h
        simp at h
  · rw [hpr]
    rcases hq : queue_get st now with _ | ⟨⟨v, st2⟩, tc2⟩
    · constructor
      · intro _ r tc h
        simp at h
      · intro _
        rfl
    · simp only [withTimeout]
      by_cases hle : tc2 ≤ now + t
      · rw [if_pos hle]
        constructor
        · intro h
          simp at h
        · intro h
          have := h (v, st2) tc2 rfl
          omega
      · rw [if_neg hle]
        constructor
        · intro _ r tc h
          injection h with h
          obtain ⟨h1, h2⟩ := Prod.mk.injEq _ _ _ _ |>.mp h
          subst h1
          subst h2
          omega
        · intro _
          rfl
  · intro tf h
    rw [hpr] at h
    rcases hq : queue_get st now with _ | ⟨⟨v, st2⟩, tc2⟩
    · rw [hq] at h
      simp [withTimeout] at h
      omega
    · rw [hq] at h
      simp only [withTimeout] at h
      by_cases hle : tc2 ≤ now + t
      · rw [if_pos hle] at h
        simp at h
      · rw [if_neg hle] at h
        injection h with h
        omega

/-- Witness for C1: a concrete send call crashes with AttributeError at
time 0; the intended send on an empty channel with no arrivals and
timeout 5 fails exactly at time 5. -/
theorem send_crashes_witness :
    send ['o', 'k'] 5 0 (ChanState.mk [] []) =
      ([], Except.error (SendErr.attributeError, 0)) ∧
    (send_intended ['o', 'k'] 5 0 (ChanState.mk [] [])).2 = Except.error 5 :=
  ⟨(send_crashes ['o', 'k'] 5 0 (ChanState.mk [] [])).1,
   ((send_crashes ['o', 'k'] 5 0 (ChanState.mk [] [])).2.2.2.1).mpr
     (by intro r tc h; simp [queue_get] at h)⟩

/-- C8 (counterexample data): two distinct snapshots enqueued on the
telemetry channel, the older one first. -/
def snapA : Value := Value.state (DroneState.mk ['a'])

/-- The newer of the two enqueued snapshots. -/
def snapB : Value := Value.state (DroneState.mk ['b'])

/-- A telemetry channel holding two unconsumed snapshots: snapA arrived
before snapB, so snapB is the most recent unconsumed snapshot. -/
def chan2 : ChanState Value := ChanState.mk [snapA, snapB] []

/-- C8 counterexample: with two unconsumed snapshots on the telemetry
channel, the state call returns the first-received snapshot, which is not
the most recent unconsumed one (the last of the queue); the claim that
the most recent unconsumed snapshot is returned is false. -/
theorem state_not_most_recent :
    (state 5 0 chan2).toOption.map (fun r => r.1.1) = some snapA ∧
    chan2.queue.getLast? = some snapB ∧
    (state 5 0 chan2).toOption.map (fun r => r.1.1) ≠ chan2.queue.getLast? := by
  refine ⟨rfl, rfl, ?_⟩
  intro h
  exact absurd (Option.some.inj h) (by decide)

/-- C8 amended: the state call returns the oldest unconsumed snapshot,
the head of the FIFO queue, immediately and with the rest of the queue as
the remaining channel state. -/
theorem state_fifo (t now : Nat) (st : ChanState Value) (v : Value)
    (rest : List Value) (h : st.queue = v :: rest) :
    state t now st = Except.ok ((v, ChanState.mk rest st.arrivals), now) := by
  simp only [state, queue_get, h, withTimeout]
  rw [if_pos (Nat.le_add_right now t)]

/-- Witness for the amended C8: on the two-snapshot channel the call
returns the older snapshot and leaves the newer one queued. -/
theorem state_fifo_witness :
    state 5 0 chan2 = Except.ok ((snapA, ChanState.mk [snapB] []), 0) :=
  state_fifo 5 0 chan2 snapA [snapB] rfl

/-- C4 counterexample: it is not the case that every inbound datagram has
its decoded outcome enqueued without an exception escaping the receive
callback: on the command channel a device error payload (indeed every
payload) makes the real command handler raise inside datagram_received
before put_nowait runs, so the queue is unchanged and the failure is
thrown at receive time, not enqueued. -/
theorem decode_failure_not_enqueued :
    ¬ (∀ (queue : List Value) (data : List Char),
        (datagram_received cmd_datagram_handler queue data).2 = none ∧
        (datagram_received cmd_datagram_handler queue data).1.length =
          queue.length + 1) := by
  intro h
  have := h [] error_marker
  revert this
  decide

/-- C4 amended: when the decoder succeeds, the decoded value is appended
to the queue in FIFO order and nothing is raised; when the decoder fails,
the exception escapes the receive callback at receive time and the queue
is unchanged, so the failure never reaches the queue. -/
theorem datagram_received_spec (handler : List Char → Except HandlerErr Value)
    (q : List Value) (data : List Char) :
    (∀ v, handler data = Except.ok v →
      datagram_received handler q data = (q ++ [v], none)) ∧
    (∀ e, handler data = Except.error e →
      datagram_received handler q data = (q, some e)) := by
  constructor
  · intro v h
    simp [datagram_received, h]
  · intro e h
    simp [datagram_received, h]

/-- Witness for the amended C4: a telemetry payload, whose handler
succeeds, is appended to the queue; a command-channel payload, whose
handler raises AttributeError, leaves the queue unchanged and escapes. -/
theorem datagram_received_spec_witness :
    datagram_received state_datagram_handler [] ['a'] =
      ([Value.state (DroneState.mk ['a'])], none) ∧
    datagram_received cmd_datagram_handler [] error_marker =
      ([], some HandlerErr.attributeError) := by
  constructor
  · have h := (datagram_received_spec state_datagram_handler [] ['a']).1
      (Value.state (DroneState.mk ['a'])) (by rfl)
    simpa using h
  · exact (datagram_received_spec cmd_datagram_handler [] error_marker).2
      HandlerErr.attributeError (by rfl)

/-- The observable outcome of one iteration of the keepalive background
task: the heartbeat send returned a response, the heartbeat send raised
TimeoutError, or the task was cancelled at this iteration. -/
inductive HbOutcome
  | ok (resp : List Char)
  | timeout
  | cancelled
deriving DecidableEq

/-- How the keepalive task ended: a suppressed CancelledError lets the
task return normally; any other exception escapes the suppress block and
the task finishes with that error. -/
inductive TaskEnd
  | stoppedClean
  | stoppedWithError
deriving DecidableEq

/-- Embedding of the keepalive task body: with
contextlib.suppress(asyncio.CancelledError), loop forever sending the
time query and sleeping.  Given the outcomes of successive iterations,
the task keeps looping on a successful heartbeat, ends normally when
cancelled (CancelledError is suppressed), and ends with an escaping
exception when the heartbeat send raises TimeoutError, which the
suppress block does not catch.  The result none means the task is still
running after the given iterations. -/
def keepalive_run : List HbOutcome → Option TaskEnd
  | [] => none
  | HbOutcome.ok _ :: rest => keepalive_run rest
  | HbOutcome.timeout :: _ => some TaskEnd.stoppedWithError
  | HbOutcome.cancelled :: _ => some TaskEnd.stoppedClean

/-- C3 counterexample: it is false that the keepalive task keeps running
as long as it is never cancelled: a single heartbeat timeout, with no
cancellation anywhere, already terminates the task. -/
theorem keepalive_dies_on_timeout :
    ¬ (∀ (os : List HbOutcome), HbOutcome.cancelled ∉ os →
        keepalive_run os = none) := by
  intro h
  have := h [HbOutcome.timeout] (by decide)
  simp [keepalive_run] at this

/-- C3 amended: the keepalive suppress block swallows only
CancelledError.  A successful heartbeat continues the loop; a heartbeat
that raises TimeoutError terminates the task with that error escaping;
cancellation terminates the task cleanly; with no iteration outcome yet
the task is still running. -/
theorem keepalive_loop_behavior (resp : List Char) (rest : List HbOutcome) :
    keepalive_run (HbOutcome.ok resp :: rest) = keepalive_run rest ∧
    keepalive_run (HbOutcome.timeout :: rest) = some TaskEnd.stoppedWithError ∧
    keepalive_run (HbOutcome.cancelled :: rest) = some TaskEnd.stoppedClean ∧
    keepalive_run [] = none := by
  refine ⟨rfl, rfl, rfl, rfl⟩

/-- Observable events of the conn context manager, in program order. -/
inductive ConnEv
  | openCmdSocket
  | openStateSocket
  | startWatchdog
  | handshakeSend
  | handshakeOk
  | yieldDrone
  | bodyError
  | stopWatchdog
  | awaitStopped
  | closeCmdSocket
  | closeStateSocket
deriving DecidableEq

/-- The ways one run of the conn context manager can go: the handshake
send raises, the block using the drone raises, or everything succeeds. -/
inductive ConnOutcome
  | handshakeFailed
  | bodyRaised
  | bodyOk
deriving DecidableEq

/-- Embedding of the returned stop function of keepalive: cancel the
task, then await it until it has finished. -/
def keepalive_stop_events : List ConnEv :=
  [ConnEv.stopWatchdog, ConnEv.awaitStopped]

/-- Embedding of the finally block of conn: await keepalive_stop, then
close the command transport, then close the state transport. -/
def teardown_events : List ConnEv :=
  keepalive_stop_events ++ [ConnEv.closeCmdSocket, ConnEv.closeStateSocket]

/-- Events of the try block of conn: construct the Drone, start the
keepalive task, await the handshake send of the fixed initialization
command, and on its success yield the drone to the caller.  When the
handshake send raises, the yield is never reached; when the caller body
raises, the error leaves the block after the yield. -/
def conn_body_events : ConnOutcome → List ConnEv
  | ConnOutcome.handshakeFailed =>
    [ConnEv.startWatchdog, ConnEv.handshakeSend]
  | ConnOutcome.bodyRaised =>
    [ConnEv.startWatchdog, ConnEv.handshakeSend, ConnEv.handshakeOk,
     ConnEv.yieldDrone, ConnEv.bodyError]
  | ConnOutcome.bodyOk =>
    [ConnEv.startWatchdog, ConnEv.handshakeSend, ConnEv.handshakeOk,
     ConnEv.yieldDrone]

/-- Whether the run of conn re-raises an exception to its caller after
the finally block has run. -/
def conn_raises : ConnOutcome → Bool
  | ConnOutcome.handshakeFailed => true
  | ConnOutcome.bodyRaised => true
  | ConnOutcome.bodyOk => false

/-- Embedding of conn: the two datagram endpoints are created first,
then the try block runs, and the finally block runs on every exit path
of the try block. -/
def conn_events (o : ConnOutcome) : List ConnEv :=
  [ConnEv.openCmdSocket, ConnEv.openStateSocket] ++
    conn_body_events o ++ teardown_events

/-- C2 (the code diverges here): on every run of conn, the keepalive
watchdog is started strictly before the handshake command is even sent,
and no handshake success precedes the watchdog start: the first four
events are always open command socket, open state socket, start
watchdog, handshake send. -/
theorem watchdog_starts_before_handshake (o : ConnOutcome) :
    (conn_events o).take 4 =
      [ConnEv.openCmdSocket, ConnEv.openStateSocket, ConnEv.startWatchdog,
       ConnEv.handshakeSend] ∧
    ConnEv.handshakeOk ∉ (conn_events o).take 3 := by
  cases o <;> decide

/-- C6: on every exit path of conn — handshake failure, an error raised
by the caller block, or normal completion — the run ends with the fixed
teardown sequence stop watchdog, await stopped, close command socket,
close state socket, and each of these four events occurs exactly once in
the whole run. -/
theorem conn_teardown_order (o : ConnOutcome) :
    (conn_events o).drop ((conn_events o).length - 4) =
      [ConnEv.stopWatchdog, ConnEv.awaitStopped, ConnEv.closeCmdSocket,
       ConnEv.closeStateSocket] ∧
    (conn_events o).count ConnEv.stopWatchdog = 1 ∧
    (conn_events o).count ConnEv.awaitStopped = 1 ∧
    (conn_events o).count ConnEv.closeCmdSocket = 1 ∧
    (conn_events o).count ConnEv.closeStateSocket = 1 := by
  cases o <;> decide

/-- C7: when the handshake send does not return a success result, the
acquisition fails: the exception is re-raised to the caller, the drone is
never yielded, and every socket opened during setup is closed — both
sockets are opened exactly once and closed exactly once, so no socket
remains open afterward. -/
theorem conn_handshake_failure_cleanup :
    conn_raises ConnOutcome.handshakeFailed = true ∧
    ConnEv.yieldDrone ∉ conn_events ConnOutcome.handshakeFailed ∧
    (conn_events ConnOutcome.handshakeFailed).count ConnEv.openCmdSocket = 1 ∧
    (conn_events ConnOutcome.handshakeFailed).count ConnEv.closeCmdSocket = 1 ∧
    (conn_events ConnOutcome.handshakeFailed).count ConnEv.openStateSocket = 1 ∧
    (conn_events ConnOutcome.handshakeFailed).count ConnEv.closeStateSocket = 1 := by
  decide

/-- Observable events of one run of the video_feed async generator. -/
inductive VEv
  | cmdIssued (c : List Char)
  | frameYielded
  | erred
deriving DecidableEq

/-- The streamon command issued when the feed is opened. -/
def streamon_cmd : List Char := ['s', 't', 'r', 'e', 'a', 'm', 'o', 'n']

/-- The streamoff command issued by the finally block. -/
def streamoff_cmd : List Char := ['s', 't', 'r', 'e', 'a', 'm', 'o', 'f', 'f']

/-- The ways the iteration inside the try block of video_feed can end:
the container runs out of frames, the consumer closes the generator
early (GeneratorExit at the yield point), or decoding raises. -/
inductive FeedEnd
  | exhausted
  | consumerClosed
  | decodeError
deriving DecidableEq

/-- The event, if any, recorded for the way the try block ended. -/
def ending_events : FeedEnd → List VEv
  | FeedEnd.decodeError => [VEv.erred]
  | FeedEnd.exhausted => []
  | FeedEnd.consumerClosed => []

/-- Embedding of Drone.video_feed as the trace of one run of the
generator: the streamon send is awaited first; when it succeeds the try
block yields the decoded frames until the iteration ends in one of the
three ways, and the finally block then awaits the streamoff send; when
the streamon send itself raises, the try block is never entered and no
streamoff is issued. -/
def video_feed_run (openOk : Bool) (n : Nat) (ending : FeedEnd) : List VEv :=
  if openOk then
    VEv.cmdIssued streamon_cmd ::
      (List.replicate n VEv.frameYielded ++ ending_events ending ++
        [VEv.cmdIssued streamoff_cmd])
  else
    [VEv.cmdIssued streamon_cmd]

/-- No frame yield or ending marker is the streamoff command event. -/
theorem count_streamoff_frames (n : Nat) :
    (List.replicate n VEv.frameYielded).count (VEv.cmdIssued streamoff_cmd) = 0 := by
  induction n with
  | zero => rfl
  | succ m ih => simpa [List.replicate_succ, List.count_cons] using ih

/-- C9: for every run of the video feed whose streamon send succeeded,
however the iteration ends — frames exhausted, consumer stops after n
frames, or a decode error — the trace starts with the streamon command,
ends with the streamoff command, and contains the streamoff command
exactly once. -/
theorem video_feed_streamoff (n : Nat) (ending : FeedEnd) :
    (video_feed_run true n ending).head? = some (VEv.cmdIssued streamon_cmd) ∧
    (video_feed_run true n ending).getLast? = some (VEv.cmdIssued streamoff_cmd) ∧
    (video_feed_run true n ending).count (VEv.cmdIssued streamoff_cmd) = 1 := by
  refine ⟨?_, ?_, ?_⟩
  · simp [video_feed_run]
  · simp only [video_feed_run, if_pos]
    rw [show VEv.cmdIssued streamon_cmd ::
        (List.replicate n VEv.frameYielded ++ ending_events ending ++
          [VEv.cmdIssued streamoff_cmd]) =
      (VEv.cmdIssued streamon_cmd ::
        (List.replicate n VEv.frameYielded ++ ending_events ending)) ++
        [VEv.cmdIssued streamoff_cmd] by simp]
    exact List.getLast?_concat _
  · simp only [video_feed_run, if_pos, List.count_cons, List.count_append,
      count_streamoff_frames]
    cases ending <;> simp [ending_events, List.count_cons, streamon_cmd,
      streamoff_cmd]
